import Mathlib

/-!
Shallow embedding of the hackathon backend (`backend/server.py`): the
identity/authorization layer (bcrypt password check, JWT issue/validate,
`get_current_user`, `require_role`) and the domain operations on the
persisted store (`register`, `login`, `create_event`, `update_event_status`,
`create_team`, `create_submission`).

Modelling conventions:
- MongoDB collections become lists kept in insertion order; `find_one`
  becomes `List.find?` (first match in natural order), `insert_one` appends,
  and `update_one` rewrites the first matching element.
- Timestamps are natural numbers (seconds); `datetime.utcnow()` and
  generated UUIDs/salts become explicit parameters of the operations.
- bcrypt is modelled abstractly: a hash is a (salt, digest) pair whose
  digest is a function of salt and password; `checkpw` recomputes and
  compares digests.
- A JWT is either a structured signed token (payload plus signature) or a
  `malformed` blob; the HMAC signature is modelled by an abstract function
  of payload and secret, and `jwt.decode` checks the signature and then the
  `exp` claim, exactly mirroring the distinct `ExpiredSignatureError` /
  `InvalidTokenError` outcomes in `decode_jwt_token`.
- `raise HTTPException(...)` becomes `Except.error` carrying status code and
  detail string; the blanket `except Exception` in `get_current_user` is the
  outer match that rewrites every error to 401 "Invalid authentication".
-/

namespace Synaphack

/-- `UserRole` enum from `server.py`. -/
inductive UserRole where
  | organizer
  | participant
  | judge
deriving DecidableEq

/-- `EventStatus` enum from `server.py`. -/
inductive EventStatus where
  | draft
  | active
  | submissions_open
  | submissions_closed
  | judging
  | completed
deriving DecidableEq

/-- `fastapi.HTTPException`: status code plus detail string. -/
structure HTTPError where
  status_code : Nat
  detail : String
deriving DecidableEq

/-- The `User` pydantic model (what `User(**user_data)` yields: the stored
password field is ignored by the model). -/
structure User where
  id : String
  email : String
  name : String
  role : UserRole
  created_at : Nat
  is_active : Bool
deriving DecidableEq

/-- Abstract bcrypt hash: per-credential salt plus digest. -/
structure BcryptHash where
  salt : String
  digest : String
deriving DecidableEq

/-- `bcrypt.hashpw(password, salt)`: the digest is an abstract one-way
function of salt and password (modelled as their concatenation). -/
def bcrypt_hashpw (password : String) (salt : String) : BcryptHash :=
  ⟨salt, salt ++ "|" ++ password⟩

/-- `bcrypt.checkpw`: recompute the digest with the stored salt and compare. -/
def bcrypt_checkpw (password : String) (hashed : BcryptHash) : Bool :=
  (bcrypt_hashpw password hashed.salt).digest == hashed.digest

/-- `hash_password` from `server.py` (the random `gensalt()` is an explicit
parameter). -/
def hash_password (password : String) (salt : String) : BcryptHash :=
  bcrypt_hashpw password salt

/-- `verify_password` from `server.py`. -/
def verify_password (password : String) (hashed : BcryptHash) : Bool :=
  bcrypt_checkpw password hashed

/-- A document of the `users` collection: the `User` fields plus the stored
password hash (`user_dict['password'] = hashed_password` in `register`). -/
structure StoredUser where
  toUser : User
  password : BcryptHash
deriving DecidableEq

/-- The `Event` pydantic model. -/
structure Event where
  id : String
  title : String
  description : String
  organizer_id : String
  status : EventStatus
  start_date : Nat
  end_date : Nat
  submission_deadline : Nat
  max_team_size : Int
  tracks : List String
  prizes : List String
  rules : String
  created_at : Nat
deriving DecidableEq

/-- The `EventCreate` request model. -/
structure EventCreate where
  title : String
  description : String
  start_date : Nat
  end_date : Nat
  submission_deadline : Nat
  max_team_size : Int
  tracks : List String
  prizes : List String
  rules : String
deriving DecidableEq

/-- The `Team` pydantic model. -/
structure Team where
  id : String
  name : String
  event_id : String
  leader_id : String
  members : List String
  created_at : Nat
deriving DecidableEq

/-- The `TeamCreate` request model. -/
structure TeamCreate where
  name : String
  event_id : String
deriving DecidableEq

/-- The `Submission` pydantic model. -/
structure Submission where
  id : String
  team_id : String
  event_id : String
  title : String
  description : String
  github_url : Option String
  demo_url : Option String
  video_url : Option String
  submitted_at : Nat
deriving DecidableEq

/-- The `SubmissionCreate` request model. -/
structure SubmissionCreate where
  title : String
  description : String
  github_url : Option String
  demo_url : Option String
  video_url : Option String
deriving DecidableEq

/-- The MongoDB database: one list per collection, in natural (insertion)
order. -/
structure Store where
  users : List StoredUser
  events : List Event
  teams : List Team
  submissions : List Submission
deriving DecidableEq

/-- JWT claim set produced by `create_jwt_token`: the `User` dict fields plus
`exp`.  Every claim except `exp` is optional so that tokens with missing
claims are representable (`payload.get('id')` in `get_current_user`). -/
structure JwtPayload where
  id : Option String
  email : Option String
  name : Option String
  role : Option UserRole
  created_at : Option Nat
  is_active : Option Bool
  exp : Nat
deriving DecidableEq

/-- `JWT_SECRET` configuration default from `server.py`. -/
def JWT_SECRET : String := "your-secret-key-change-in-production"

/-- `JWT_EXPIRATION_HOURS` configuration from `server.py`. -/
def JWT_EXPIRATION_HOURS : Nat := 24

/-- Abstract HMAC-SHA256 signature of a payload under a secret.  Only the
property "`decode` accepts exactly the signature produced with the same
payload and secret" matters to the embedding. -/
def sign (p : JwtPayload) (secret : String) : Nat :=
  secret.length + p.exp + (p.id.getD "").length + (p.email.getD "").length

/-- A bearer token: either a structurally well-formed signed token or a
malformed blob that fails parsing. -/
inductive Token where
  | signed (payload : JwtPayload) (sig : Nat)
  | malformed
deriving DecidableEq

/-- `create_jwt_token` from `server.py`: payload is the user dict plus
`exp = utcnow() + timedelta(hours=JWT_EXPIRATION_HOURS)`, signed with the
secret. -/
def create_jwt_token (u : User) (secret : String) (now : Nat) : Token :=
  let payload : JwtPayload :=
    { id := some u.id, email := some u.email, name := some u.name,
      role := some u.role, created_at := some u.created_at,
      is_active := some u.is_active,
      exp := now + JWT_EXPIRATION_HOURS * 3600 }
  Token.signed payload (sign payload secret)

/-- `decode_jwt_token` from `server.py`: `jwt.decode` verifies structure and
signature (failure → `InvalidTokenError` → 401 "Invalid token"), then the
`exp` claim (failure → `ExpiredSignatureError` → 401 "Token expired"). -/
def decode_jwt_token (tok : Token) (secret : String) (now : Nat) :
    Except HTTPError JwtPayload :=
  match tok with
  | Token.malformed => Except.error ⟨401, "Invalid token"⟩
  | Token.signed p s =>
      if s ≠ sign p secret then Except.error ⟨401, "Invalid token"⟩
      else if p.exp ≤ now then Except.error ⟨401, "Token expired"⟩
      else Except.ok p

/-- The body of the `try:` block of `get_current_user`: decode the token,
extract the `id` claim (`if not user_id` rejects a missing or empty id),
re-fetch the user record by id, and build the `User` model.  Note that
`is_active` is never consulted. -/
def get_current_user_checks (s : Store) (tok : Token) (now : Nat) :
    Except HTTPError User :=
  match decode_jwt_token tok JWT_SECRET now with
  | Except.error e => Except.error e
  | Except.ok payload =>
      match payload.id with
      | none => Except.error ⟨401, "Invalid token"⟩
      | some uid =>
          if uid = "" then Except.error ⟨401, "Invalid token"⟩
          else
            match s.users.find? (fun su => su.toUser.id == uid) with
            | none => Except.error ⟨401, "User not found"⟩
            | some su => Except.ok su.toUser

/-- `get_current_user` from `server.py`: the whole body sits in
`try: ... except Exception: raise HTTPException(401, "Invalid authentication")`,
so every failure — expired token, bad signature, malformed token, missing id
claim, unknown user — surfaces as the same 401 "Invalid authentication". -/
def get_current_user (s : Store) (tok : Token) (now : Nat) :
    Except HTTPError User :=
  match get_current_user_checks s tok now with
  | Except.ok u => Except.ok u
  | Except.error _ => Except.error ⟨401, "Invalid authentication"⟩

/-- `require_role` from `server.py`: resolve the current user, then reject
with 403 "Insufficient permissions" when the role is outside the allowed
list. -/
def require_role (required_roles : List UserRole) (s : Store) (tok : Token)
    (now : Nat) : Except HTTPError User :=
  match get_current_user s tok now with
  | Except.error e => Except.error e
  | Except.ok u =>
      if u.role ∈ required_roles then Except.ok u
      else Except.error ⟨403, "Insufficient permissions"⟩

/-- The `UserCreate` request model. -/
structure UserCreate where
  email : String
  name : String
  password : String
  role : UserRole
deriving DecidableEq

/-- `register` route handler: duplicate-email check, then insert the user
with the hashed password. -/
def register (user_data : UserCreate) (uuid salt : String) (now : Nat)
    (s : Store) : Except HTTPError User × Store :=
  match s.users.find? (fun su => su.toUser.email == user_data.email) with
  | some _ => (Except.error ⟨400, "Email already registered"⟩, s)
  | none =>
      let u : User :=
        { id := uuid, email := user_data.email, name := user_data.name,
          role := user_data.role, created_at := now, is_active := true }
      (Except.ok u,
       { s with users := s.users ++ [⟨u, hash_password user_data.password salt⟩] })

/-- `login` route handler: look up by email; absent user and hash mismatch
take the same branch (`if not user_data or not verify_password(...)`) with
the same 401 "Invalid credentials" error.  On success issue a token. -/
def login (email password : String) (now : Nat) (s : Store) :
    Except HTTPError (Token × User) :=
  match s.users.find? (fun su => su.toUser.email == email) with
  | none => Except.error ⟨401, "Invalid credentials"⟩
  | some su =>
      if verify_password password su.password then
        Except.ok (create_jwt_token su.toUser JWT_SECRET now, su.toUser)
      else Except.error ⟨401, "Invalid credentials"⟩

/-- `create_event` route handler body (after the `require_role([ORGANIZER])`
dependency has resolved `current_user`): insert a new event with
`organizer_id = current_user.id` and default status `DRAFT`. -/
def create_event (event_data : EventCreate) (current_user : User)
    (uuid : String) (now : Nat) (s : Store) : Except HTTPError Event × Store :=
  let event : Event :=
    { id := uuid, title := event_data.title,
      description := event_data.description,
      organizer_id := current_user.id, status := EventStatus.draft,
      start_date := event_data.start_date, end_date := event_data.end_date,
      submission_deadline := event_data.submission_deadline,
      max_team_size := event_data.max_team_size,
      tracks := event_data.tracks, prizes := event_data.prizes,
      rules := event_data.rules, created_at := now }
  (Except.ok event, { s with events := s.events ++ [event] })

/-- The full `/events` POST route: `require_role([ORGANIZER])` dependency,
then the handler body. -/
def create_event_route (event_data : EventCreate) (uuid : String)
    (now : Nat) (s : Store) (tok : Token) (tnow : Nat) :
    Except HTTPError Event × Store :=
  match require_role [UserRole.organizer] s tok tnow with
  | Except.error e => (Except.error e, s)
  | Except.ok u => create_event event_data u uuid now s

/-- `{"$set": {"status": status}}` applied to one event document. -/
def setStatusEvent (st : EventStatus) (e : Event) : Event :=
  { e with status := st }

/-- `db.events.update_one({"id": event_id}, {"$set": {"status": status}})`:
rewrite the status of the first event whose id matches. -/
def set_status_first (events : List Event) (eid : String)
    (st : EventStatus) : List Event :=
  match events with
  | [] => []
  | e :: rest =>
      if e.id == eid then setStatusEvent st e :: rest
      else e :: set_status_first rest eid st

/-- `update_event_status` route handler body: `find_one` on id AND
organizer_id (merged not-found/unauthorized 404 on failure), then update the
status — with no validation of the transition edge. -/
def update_event_status (event_id : String) (status : EventStatus)
    (current_user : User) (s : Store) : Except HTTPError String × Store :=
  match s.events.find?
      (fun e => e.id == event_id && e.organizer_id == current_user.id) with
  | none => (Except.error ⟨404, "Event not found or unauthorized"⟩, s)
  | some _ =>
      (Except.ok "Event status updated successfully",
       { s with events := set_status_first s.events event_id status })

/-- The `$or` predicate of the `create_team` duplicate check: the identity is
the team's leader or among its members. -/
def onTeam (uid : String) (t : Team) : Bool :=
  t.leader_id == uid || t.members.contains uid

/-- `create_team` route handler body: event must exist with status ACTIVE or
SUBMISSIONS_OPEN (else 400 "Event not available for registration"); the
caller must not already be leader or member of a team for this event (else
400 "Already part of a team for this event"); on success insert a team with
`leader_id = current_user.id` and `members = [current_user.id]`. -/
def create_team (team_data : TeamCreate) (current_user : User)
    (uuid : String) (now : Nat) (s : Store) : Except HTTPError Team × Store :=
  match s.events.find? (fun e => e.id == team_data.event_id) with
  | none => (Except.error ⟨400, "Event not available for registration"⟩, s)
  | some event =>
      if event.status ∉ [EventStatus.active, EventStatus.submissions_open] then
        (Except.error ⟨400, "Event not available for registration"⟩, s)
      else
        match s.teams.find?
            (fun t => t.event_id == team_data.event_id && onTeam current_user.id t) with
        | some _ => (Except.error ⟨400, "Already part of a team for this event"⟩, s)
        | none =>
            let team : Team :=
              { id := uuid, name := team_data.name,
                event_id := team_data.event_id,
                leader_id := current_user.id,
                members := [current_user.id], created_at := now }
            (Except.ok team, { s with teams := s.teams ++ [team] })

/-- `create_submission` route handler body: team must exist and contain the
caller in `members` (else 403 "Not a member of this team"); the team's event
must exist with status SUBMISSIONS_OPEN (else 400 "Submissions not open for
this event"); no submission may already exist for (team_id, event_id) (else
400 "Submission already exists for this team"); on success insert a
submission whose event_id is denormalized from the team record. -/
def create_submission (submission_data : SubmissionCreate) (team_id : String)
    (current_user : User) (uuid : String) (now : Nat) (s : Store) :
    Except HTTPError Submission × Store :=
  match s.teams.find? (fun t => t.id == team_id) with
  | none => (Except.error ⟨403, "Not a member of this team"⟩, s)
  | some team =>
      if current_user.id ∉ team.members then
        (Except.error ⟨403, "Not a member of this team"⟩, s)
      else
        match s.events.find? (fun e => e.id == team.event_id) with
        | none => (Except.error ⟨400, "Submissions not open for this event"⟩, s)
        | some event =>
            if event.status ∉ [EventStatus.submissions_open] then
              (Except.error ⟨400, "Submissions not open for this event"⟩, s)
            else
              match s.submissions.find?
                  (fun sub => sub.team_id == team_id && sub.event_id == team.event_id) with
              | some _ =>
                  (Except.error ⟨400, "Submission already exists for this team"⟩, s)
              | none =>
                  let sub : Submission :=
                    { id := uuid, team_id := team_id,
                      event_id := team.event_id,
                      title := submission_data.title,
                      description := submission_data.description,
                      github_url := submission_data.github_url,
                      demo_url := submission_data.demo_url,
                      video_url := submission_data.video_url,
                      submitted_at := now }
                  (Except.ok sub, { s with submissions := s.submissions ++ [sub] })

/-- One step of the system: some state-mutating operation runs against the
store (with arbitrary caller, request data, generated uuid/salt and clock).
Read-only routes (`login`, listings, `get_team_submission`) never change the
store and are omitted. -/
inductive Step : Store → Store → Prop where
  | ofRegister (ud : UserCreate) (uuid salt : String) (now : Nat) (s : Store) :
      Step s (register ud uuid salt now s).2
  | ofCreateEvent (ed : EventCreate) (u : User) (uuid : String) (now : Nat)
      (s : Store) : Step s (create_event ed u uuid now s).2
  | ofUpdateEventStatus (eid : String) (st : EventStatus) (u : User)
      (s : Store) : Step s (update_event_status eid st u s).2
  | ofCreateTeam (td : TeamCreate) (u : User) (uuid : String) (now : Nat)
      (s : Store) : Step s (create_team td u uuid now s).2
  | ofCreateSubmission (sd : SubmissionCreate) (tid : String) (u : User)
      (uuid : String) (now : Nat) (s : Store) :
      Step s (create_submission sd tid u uuid now s).2

/-- The empty database. -/
def emptyStore : Store := ⟨[], [], [], []⟩

/-- Store states reachable from the empty database by the mutating
operations. -/
inductive Reachable : Store → Prop where
  | init : Reachable emptyStore
  | next {s t : Store} : Reachable s → Step s t → Reachable t

/-- Number of teams of event `eid` that identity `uid` belongs to (as leader
or member). -/
def teamsFor (s : Store) (uid eid : String) : Nat :=
  s.teams.countP (fun t => t.event_id == eid && onTeam uid t)

/-- Number of submissions for the pair (team `tid`, event `eid`). -/
def subsFor (s : Store) (tid eid : String) : Nat :=
  s.submissions.countP (fun sub => sub.team_id == tid && sub.event_id == eid)

/-- Overwrite the `max_team_size` field of one event document with `n`. -/
def setMaxEvent (n : Int) (e : Event) : Event :=
  { e with max_team_size := n }

/-- Overwrite the `max_team_size` field of every stored event with `n`. -/
def set_max_team_size (s : Store) (n : Int) : Store :=
  { s with events := s.events.map (setMaxEvent n) }

instance {ε α : Type} [DecidableEq ε] [DecidableEq α] :
    DecidableEq (Except ε α) := fun a b =>
  match a, b with
  | Except.error e, Except.error f =>
      if h : e = f then isTrue (by rw [h])
      else isFalse (fun hh => h (Except.error.inj hh))
  | Except.ok x, Except.ok y =>
      if h : x = y then isTrue (by rw [h])
      else isFalse (fun hh => h (Except.ok.inj hh))
  | Except.error _, Except.ok _ => isFalse (fun hh => Except.noConfusion hh)
  | Except.ok _, Except.error _ => isFalse (fun hh => Except.noConfusion hh)

/-! ### Concrete fixtures used by witnesses and counterexamples -/

/-- A concrete organizer identity. -/
def uOrg : User := ⟨"o1", "o@x.com", "Org", UserRole.organizer, 0, true⟩

/-- A concrete participant identity. -/
def uP : User := ⟨"p1", "p@x.com", "Part", UserRole.participant, 0, true⟩

/-- A concrete event-creation request. -/
def ed0 : EventCreate := ⟨"T", "D", 1, 2, 3, 4, [], [], ""⟩

/-- A concrete team-creation request for event `e1`. -/
def td0 : TeamCreate := ⟨"team", "e1"⟩

/-- A concrete submission-creation request. -/
def sd0 : SubmissionCreate := ⟨"proj", "desc", none, none, none⟩

/-- Store after `uOrg` creates event `e1` (status `draft`). -/
def s1 : Store := (create_event ed0 uOrg "e1" 0 emptyStore).2

/-- Store after `uOrg` sets event `e1` to `active`. -/
def s2 : Store := (update_event_status "e1" EventStatus.active uOrg s1).2

/-- Store after `uP` creates team `t1` for event `e1`. -/
def s3 : Store := (create_team td0 uP "t1" 0 s2).2

/-- Store after `uOrg` moves event `e1` back to `draft` (permitted: no
transition-edge validation). -/
def s4 : Store := (update_event_status "e1" EventStatus.draft uOrg s3).2

/-- Store after `uOrg` sets event `e1` to `submissions_open` (from `s3`). -/
def s5 : Store := (update_event_status "e1" EventStatus.submissions_open uOrg s3).2

/-- Store after team `t1` submits to event `e1`. -/
def s6 : Store := (create_submission sd0 "t1" uP "sub1" 2 s5).2

/-- Store after `uOrg` closes submissions for event `e1`. -/
def s7 : Store := (update_event_status "e1" EventStatus.submissions_closed uOrg s6).2

/-- The stored record of event `e1` while it is `active`. -/
def evActive : Event :=
  ⟨"e1", "T", "D", "o1", EventStatus.active, 1, 2, 3, 4, [], [], "", 0⟩

/-- The stored record of event `e1` while it is `draft`. -/
def evDraft : Event :=
  ⟨"e1", "T", "D", "o1", EventStatus.draft, 1, 2, 3, 4, [], [], "", 0⟩

/-- The stored record of event `e1` while it is `submissions_open`. -/
def evOpen : Event :=
  ⟨"e1", "T", "D", "o1", EventStatus.submissions_open, 1, 2, 3, 4, [], [], "", 0⟩

/-- The `users`-collection document of `uP`. -/
def suP : StoredUser := ⟨uP, hash_password "pw2" "s2"⟩

/-- A store holding only the participant `uP`. -/
def sAuth : Store := ⟨[suP], [], [], []⟩

/-- A fresh, in-window token for `uP` issued at time 0. -/
def tokP : Token := create_jwt_token uP JWT_SECRET 0

/-- The payload `tokP` carries. -/
def pP : JwtPayload :=
  ⟨some "p1", some "p@x.com", some "Part", some UserRole.participant,
   some 0, some true, 86400⟩

/-- `uP` with the active flag cleared (a deactivated account). -/
def uPInactive : User :=
  ⟨"p1", "p@x.com", "Part", UserRole.participant, 0, false⟩

/-- A store whose only identity is deactivated. -/
def sInactive : Store := ⟨[⟨uPInactive, hash_password "pw2" "s2"⟩], [], [], []⟩

/-- A correctly signed payload whose `exp` (5) is already in the past at
time 10. -/
def pExpired : JwtPayload :=
  ⟨some "p1", some "p@x.com", some "Part", some UserRole.participant,
   some 0, some true, 5⟩

/-- An expired but correctly signed token. -/
def tokExpired : Token := Token.signed pExpired (sign pExpired JWT_SECRET)

/-- The team record `create_team` inserts as `t1`. -/
def teamT1 : Team := ⟨"t1", "team", "e1", "p1", ["p1"], 0⟩

/-- The submission record `create_submission` inserts for team `t1`. -/
def subS1 : Submission :=
  ⟨"sub1", "t1", "e1", "proj", "desc", none, none, none, 2⟩

/-- A well-signed, unexpired payload missing the required `id` claim. -/
def pNoId : JwtPayload :=
  ⟨none, some "p@x.com", some "Part", some UserRole.participant,
   some 0, some true, 99⟩

end Synaphack

namespace Synaphack

/-! ### Helper lemmas -/

/-- `register` never writes the teams collection. -/
lemma teams_register (ud : UserCreate) (uuid salt : String) (now : Nat)
    (s : Store) : ((register ud uuid salt now s).2).teams = s.teams := by
  unfold register
  split <;> rfl

/-- `create_event` never writes the teams collection. -/
lemma teams_create_event (ed : EventCreate) (u : User) (uuid : String)
    (now : Nat) (s : Store) :
    ((create_event ed u uuid now s).2).teams = s.teams := rfl

/-- `update_event_status` never writes the teams collection. -/
lemma teams_update_event_status (eid : String) (st : EventStatus) (u : User)
    (s : Store) : ((update_event_status eid st u s).2).teams = s.teams := by
  unfold update_event_status
  split <;> rfl

/-- `create_submission` never writes the teams collection. -/
lemma teams_create_submission (sd : SubmissionCreate) (tid : String)
    (u : User) (uuid : String) (now : Nat) (s : Store) :
    ((create_submission sd tid u uuid now s).2).teams = s.teams := by
  unfold create_submission
  split
  · rfl
  · split
    · rfl
    · split
      · rfl
      · split
        · rfl
        · split <;> rfl

/-- `register` never writes the submissions collection. -/
lemma submissions_register (ud : UserCreate) (uuid salt : String) (now : Nat)
    (s : Store) : ((register ud uuid salt now s).2).submissions = s.submissions := by
  unfold register
  split <;> rfl

/-- `create_event` never writes the submissions collection. -/
lemma submissions_create_event (ed : EventCreate) (u : User) (uuid : String)
    (now : Nat) (s : Store) :
    ((create_event ed u uuid now s).2).submissions = s.submissions := rfl

/-- `update_event_status` never writes the submissions collection. -/
lemma submissions_update_event_status (eid : String) (st : EventStatus)
    (u : User) (s : Store) :
    ((update_event_status eid st u s).2).submissions = s.submissions := by
  unfold update_event_status
  split <;> rfl

/-- `create_team` never writes the submissions collection. -/
lemma submissions_create_team (td : TeamCreate) (u : User) (uuid : String)
    (now : Nat) (s : Store) :
    ((create_team td u uuid now s).2).submissions = s.submissions := by
  unfold create_team
  split
  · rfl
  · split
    · rfl
    · split <;> rfl

/-- `create_team` preserves the at-most-one-team-per-identity-per-event
bound: the duplicate check runs right before the insert. -/
lemma create_team_teamsFor_le (td : TeamCreate) (u : User) (uuid : String)
    (now : Nat) (s : Store) (h : ∀ uid eid, teamsFor s uid eid ≤ 1) :
    ∀ uid eid, teamsFor (create_team td u uuid now s).2 uid eid ≤ 1 := by
  intro uid eid
  unfold create_team
  split
  · exact h uid eid
  · split
    · exact h uid eid
    · split
      · exact h uid eid
      · rename_i event hev hst hnone
        show (s.teams ++ [_]).countP _ ≤ 1
        rw [List.countP_append]
        by_cases hp : (td.event_id == eid && onTeam uid
            { id := uuid, name := td.name, event_id := td.event_id,
              leader_id := u.id, members := [u.id], created_at := now }) = true
        · have huid : uid = u.id := by
            rcases Bool.and_eq_true .. |>.mp hp with ⟨-, hot⟩
            unfold onTeam at hot
            rcases Bool.or_eq_true .. |>.mp hot with hl | hm
            · exact (beq_iff_eq.mp hl).symm
            · simpa [List.contains] using hm
          have heid : td.event_id = eid := by
            rcases Bool.and_eq_true .. |>.mp hp with ⟨he, -⟩
            exact beq_iff_eq.mp he
          have hzero : s.teams.countP (fun t => t.event_id == eid && onTeam uid t) = 0 := by
            rw [List.countP_eq_zero]
            intro t ht
            have := List.find?_eq_none.mp hnone t ht
            rw [huid, ← heid]
            simpa using this
          have hone : List.countP (fun t => t.event_id == eid && onTeam uid t)
              [⟨uuid, td.name, td.event_id, u.id, [u.id], now⟩] ≤ 1 := by
            simp [List.countP_cons]
            split <;> simp
          calc s.teams.countP _ + _ ≤ 0 + 1 := by
                rw [hzero]
                exact Nat.add_le_add_left hone 0
            _ = 1 := rfl
        · have hz : List.countP (fun t => t.event_id == eid && onTeam uid t)
              [⟨uuid, td.name, td.event_id, u.id, [u.id], now⟩] = 0 := by
            rw [List.countP_eq_zero]
            intro t ht
            simp only [List.mem_singleton] at ht
            subst ht
            simpa using hp
          rw [hz]
          simpa using h uid eid

/-- Any step preserves the one-team-per-identity-per-event bound. -/
lemma step_teamsFor_le {s t : Store} (hstep : Step s t)
    (h : ∀ uid eid, teamsFor s uid eid ≤ 1) :
    ∀ uid eid, teamsFor t uid eid ≤ 1 := by
  cases hstep with
  | ofRegister ud uuid salt now =>
      intro uid eid
      unfold teamsFor
      rw [teams_register]
      exact h uid eid
  | ofCreateEvent ed u uuid now =>
      intro uid eid
      unfold teamsFor
      rw [teams_create_event]
      exact h uid eid
  | ofUpdateEventStatus eid' st u =>
      intro uid eid
      unfold teamsFor
      rw [teams_update_event_status]
      exact h uid eid
  | ofCreateTeam td u uuid now =>
      exact create_team_teamsFor_le td u uuid now s h
  | ofCreateSubmission sd tid u uuid now =>
      intro uid eid
      unfold teamsFor
      rw [teams_create_submission]
      exact h uid eid

/-- Every reachable store satisfies the one-team bound. -/
lemma reachable_teamsFor_le {s : Store} (hr : Reachable s) :
    ∀ uid eid, teamsFor s uid eid ≤ 1 := by
  induction hr with
  | init => intro uid eid; exact Nat.zero_le 1
  | next _ hstep ih => exact step_teamsFor_le hstep ih

/-- Appending one element keeps a `countP` bound of one, provided the list
counts zero whenever the new element matches. -/
lemma countP_snoc_le {α : Type} (p : α → Bool) (l : List α) (x : α)
    (h1 : l.countP p ≤ 1) (h0 : p x = true → l.countP p = 0) :
    (l ++ [x]).countP p ≤ 1 := by
  rw [List.countP_append]
  by_cases hp : p x = true
  · rw [h0 hp]
    simp [List.countP_cons, hp]
  · have hz : List.countP p [x] = 0 := by
      simp [List.countP_cons, hp]
    rw [hz]
    simpa using h1

/-- `create_submission` preserves the one-submission-per-(team, event)
bound: the duplicate check runs right before the insert. -/
lemma create_submission_subsFor_le (sd : SubmissionCreate) (tid : String)
    (u : User) (uuid : String) (now : Nat) (s : Store)
    (h : ∀ t e, subsFor s t e ≤ 1) :
    ∀ t e, subsFor (create_submission sd tid u uuid now s).2 t e ≤ 1 := by
  intro t e
  unfold create_submission
  split
  · exact h t e
  · split
    · exact h t e
    · split
      · exact h t e
      · split
        · exact h t e
        · split
          · exact h t e
          · rename_i hnone
            show (s.submissions ++ [_]).countP _ ≤ 1
            apply countP_snoc_le
            · exact h t e
            · intro hp
              simp only [beq_iff_eq, Bool.and_eq_true] at hp
              obtain ⟨h1, h2⟩ := hp
              have h1x : tid = t := h1
              subst h1x
              subst h2
              rw [List.countP_eq_zero]
              intro x hx
              simpa using List.find?_eq_none.mp hnone x hx

/-- Any step preserves the one-submission bound. -/
lemma step_subsFor_le {s t : Store} (hstep : Step s t)
    (h : ∀ ti e, subsFor s ti e ≤ 1) :
    ∀ ti e, subsFor t ti e ≤ 1 := by
  cases hstep with
  | ofRegister ud uuid salt now =>
      intro ti e
      unfold subsFor
      rw [submissions_register]
      exact h ti e
  | ofCreateEvent ed u uuid now =>
      intro ti e
      unfold subsFor
      rw [submissions_create_event]
      exact h ti e
  | ofUpdateEventStatus eid st u =>
      intro ti e
      unfold subsFor
      rw [submissions_update_event_status]
      exact h ti e
  | ofCreateTeam td u uuid now =>
      intro ti e
      unfold subsFor
      rw [submissions_create_team]
      exact h ti e
  | ofCreateSubmission sd tid u uuid now =>
      exact create_submission_subsFor_le sd tid u uuid now s h

/-- Every reachable store satisfies the one-submission bound. -/
lemma reachable_subsFor_le {s : Store} (hr : Reachable s) :
    ∀ ti e, subsFor s ti e ≤ 1 := by
  induction hr with
  | init => intro ti e; exact Nat.zero_le 1
  | next _ hstep ih => exact step_subsFor_le hstep ih

/-- Any step preserves "every team is the singleton of its leader". -/
lemma step_members_eq {s t : Store} (hstep : Step s t)
    (h : ∀ tm ∈ s.teams, tm.members = [tm.leader_id]) :
    ∀ tm ∈ t.teams, tm.members = [tm.leader_id] := by
  cases hstep with
  | ofRegister ud uuid salt now => rw [teams_register]; exact h
  | ofCreateEvent ed u uuid now => rw [teams_create_event]; exact h
  | ofUpdateEventStatus eid st u => rw [teams_update_event_status]; exact h
  | ofCreateSubmission sd tid u uuid now => rw [teams_create_submission]; exact h
  | ofCreateTeam td u uuid now =>
      intro tm htm
      unfold create_team at htm
      split at htm
      · exact h tm htm
      · split at htm
        · exact h tm htm
        · split at htm
          · exact h tm htm
          · simp only [List.mem_append, List.mem_singleton] at htm
            rcases htm with htm | htm
            · exact h tm htm
            · subst htm; rfl

/-- Every reachable store has singleton teams. -/
lemma reachable_members_eq {s : Store} (hr : Reachable s) :
    ∀ tm ∈ s.teams, tm.members = [tm.leader_id] := by
  induction hr with
  | init => intro tm htm; cases htm
  | next _ hstep ih => exact step_members_eq hstep ih

end Synaphack

namespace Synaphack

/-- `setMaxEvent` keeps the id. -/
lemma setMaxEvent_id (n : Int) (e : Event) : (setMaxEvent n e).id = e.id := rfl

/-- `setMaxEvent` keeps the status. -/
lemma setMaxEvent_status (n : Int) (e : Event) :
    (setMaxEvent n e).status = e.status := rfl

/-- `setMaxEvent` keeps the organizer. -/
lemma setMaxEvent_organizer (n : Int) (e : Event) :
    (setMaxEvent n e).organizer_id = e.organizer_id := rfl

/-- `setMaxEvent` commutes with `setStatusEvent`. -/
lemma setMaxEvent_setStatusEvent (n : Int) (st : EventStatus) (e : Event) :
    setMaxEvent n (setStatusEvent st e) = setStatusEvent st (setMaxEvent n e) := rfl

/-- `setStatusEvent` keeps the id. -/
lemma setStatusEvent_id (st : EventStatus) (e : Event) :
    (setStatusEvent st e).id = e.id := rfl

/-- `find?` on events commutes with overwriting `max_team_size` whenever the
predicate ignores that field. -/
lemma find?_map_max (events : List Event) (p : Event → Bool) (n : Int)
    (hp : ∀ e, p (setMaxEvent n e) = p e) :
    (events.map (setMaxEvent n)).find? p
      = (events.find? p).map (setMaxEvent n) := by
  induction events with
  | nil => rfl
  | cons e rest ih =>
      simp only [List.map_cons, List.find?_cons]
      rw [hp e]
      cases hpe : p e
      · simpa [hpe] using ih
      · rfl

/-- `set_status_first` commutes with overwriting `max_team_size`. -/
lemma set_status_first_map_max (events : List Event) (eid : String)
    (st : EventStatus) (n : Int) :
    set_status_first (events.map (setMaxEvent n)) eid st
      = (set_status_first events eid st).map (setMaxEvent n) := by
  induction events with
  | nil => rfl
  | cons e rest ih =>
      simp only [List.map_cons]
      unfold set_status_first
      rw [setMaxEvent_id]
      cases he : (e.id == eid)
      · simp [ih]
      · simp [setMaxEvent_setStatusEvent]

/-- After `set_status_first`, looking an event up by id yields the old
record with its status overwritten. -/
lemma find?_set_status_first (events : List Event) (eid : String)
    (st : EventStatus) :
    (set_status_first events eid st).find? (fun x => x.id == eid)
      = (events.find? (fun x => x.id == eid)).map (setStatusEvent st) := by
  induction events with
  | nil => rfl
  | cons e rest ih =>
      unfold set_status_first
      cases he : (e.id == eid)
      · rw [if_neg (by simp [he]), List.find?_cons, List.find?_cons, he, ih]
      · rw [if_pos (by simp [he]), List.find?_cons, List.find?_cons, he,
          show ((setStatusEvent st e).id == eid) = true from by
            rw [setStatusEvent_id]; exact he]
        rfl

end Synaphack

namespace Synaphack

/-- If the first event with a given id is owned by `oid`, the combined
id-and-organizer lookup of `update_event_status` finds that same event. -/
lemma find?_id_and_organizer (l : List Event) (eid oid : String) (e : Event)
    (h : l.find? (fun x => x.id == eid) = some e)
    (ho : e.organizer_id = oid) :
    l.find? (fun x => x.id == eid && x.organizer_id == oid) = some e := by
  induction l with
  | nil => cases h
  | cons x rest ih =>
      rw [List.find?_cons] at h ⊢
      cases hx : (x.id == eid)
      · rw [hx] at h
        simpa [hx] using ih h
      · rw [hx] at h
        have hxe : x = e := by cases h; rfl
        subst hxe
        simp [hx, ho]

/-- A list containing a match makes `find?` return some element. -/
lemma find?_some_of_mem {α : Type} (l : List α) (p : α → Bool) (x : α)
    (hx : x ∈ l) (hp : p x = true) : ∃ y, l.find? p = some y := by
  have hs : (l.find? p).isSome := List.find?_isSome.mpr ⟨x, hx, hp⟩
  exact Option.isSome_iff_exists.mp hs

/-- `create_team` neither reads nor writes `max_team_size`: overwriting the
field before the call changes neither the result nor anything else in the
store. -/
lemma create_team_setMax (td : TeamCreate) (u : User) (uuid : String)
    (now : Nat) (s : Store) (n : Int) :
    create_team td u uuid now (set_max_team_size s n)
      = ((create_team td u uuid now s).1,
         set_max_team_size (create_team td u uuid now s).2 n) := by
  simp only [create_team, set_max_team_size]
  rw [find?_map_max s.events (fun e => e.id == td.event_id) n (fun e => rfl)]
  cases hfind : s.events.find? (fun e => e.id == td.event_id) with
  | none => rfl
  | some e =>
      simp only [Option.map]
      simp only [setMaxEvent_status]
      by_cases hst : e.status ∈ [EventStatus.active, EventStatus.submissions_open]
      · simp only [if_neg (not_not_intro hst)]
        cases hteam : s.teams.find?
            (fun t => t.event_id == td.event_id && onTeam u.id t) <;> rfl
      · simp only [if_pos hst]

/-- `create_submission` neither reads nor writes `max_team_size`. -/
lemma create_submission_setMax (sd : SubmissionCreate) (tid : String)
    (u : User) (uuid : String) (now : Nat) (s : Store) (n : Int) :
    create_submission sd tid u uuid now (set_max_team_size s n)
      = ((create_submission sd tid u uuid now s).1,
         set_max_team_size (create_submission sd tid u uuid now s).2 n) := by
  simp only [create_submission, set_max_team_size]
  cases hteam : s.teams.find? (fun t => t.id == tid) with
  | none => rfl
  | some team =>
      by_cases hmem : u.id ∈ team.members
      · simp only [if_neg (not_not_intro hmem)]
        rw [find?_map_max s.events (fun e => e.id == team.event_id) n (fun e => rfl)]
        cases hev : s.events.find? (fun e => e.id == team.event_id) with
        | none => rfl
        | some e =>
            simp only [Option.map]
            simp only [setMaxEvent_status]
            by_cases hst : e.status ∈ [EventStatus.submissions_open]
            · simp only [if_neg (not_not_intro hst)]
              cases hsub : s.submissions.find?
                  (fun sub => sub.team_id == tid && sub.event_id == team.event_id) <;> rfl
            · simp only [if_pos hst]
      · simp only [if_pos hmem]

/-- `update_event_status` neither reads nor writes `max_team_size`. -/
lemma update_event_status_setMax (eid : String) (st : EventStatus)
    (u : User) (s : Store) (n : Int) :
    update_event_status eid st u (set_max_team_size s n)
      = ((update_event_status eid st u s).1,
         set_max_team_size (update_event_status eid st u s).2 n) := by
  simp only [update_event_status, set_max_team_size]
  rw [find?_map_max s.events
    (fun e => e.id == eid && e.organizer_id == u.id) n (fun e => rfl)]
  cases hfind : s.events.find?
      (fun e => e.id == eid && e.organizer_id == u.id) with
  | none => rfl
  | some e =>
      simp only [Option.map]
      rw [set_status_first_map_max]

end Synaphack

namespace Synaphack

/-! ### Reachability of the concrete fixture stores -/

/-- `s1` is reachable. -/
lemma reachable_s1 : Reachable s1 :=
  Reachable.next Reachable.init (Step.ofCreateEvent ed0 uOrg "e1" 0 emptyStore)

/-- `s2` is reachable. -/
lemma reachable_s2 : Reachable s2 :=
  Reachable.next reachable_s1 (Step.ofUpdateEventStatus "e1" EventStatus.active uOrg s1)

/-- `s3` is reachable. -/
lemma reachable_s3 : Reachable s3 :=
  Reachable.next reachable_s2 (Step.ofCreateTeam td0 uP "t1" 0 s2)

/-- `s5` is reachable. -/
lemma reachable_s5 : Reachable s5 :=
  Reachable.next reachable_s3
    (Step.ofUpdateEventStatus "e1" EventStatus.submissions_open uOrg s3)

/-- `s6` is reachable. -/
lemma reachable_s6 : Reachable s6 :=
  Reachable.next reachable_s5 (Step.ofCreateSubmission sd0 "t1" uP "sub1" 2 s5)

/-! ### Claims -/

/-- Claim C1, counterexample: a deactivated identity (`is_active = false`)
with an otherwise-valid token is NOT rejected: `get_current_user` returns it
successfully, because the code never consults `is_active`. -/
theorem C1_counterexample :
    uPInactive.is_active = false ∧
    get_current_user sInactive (create_jwt_token uPInactive JWT_SECRET 0) 1
      = Except.ok uPInactive :=
  ⟨rfl, rfl⟩

/-- Claim C1 (amended): for every token that validates successfully,
`get_current_user` re-fetches the identity by the token's id claim and fails
with the 401 authentication error when that identity is absent; when the
identity is present it is returned regardless of its `is_active` flag (the
flag is never checked, so deactivated identities still authenticate). -/
theorem C1_refetch_by_id :
    ∀ (s : Store) (tok : Token) (tnow : Nat) (p : JwtPayload) (uid : String)
      (su : StoredUser),
    decode_jwt_token tok JWT_SECRET tnow = Except.ok p →
    p.id = some uid → uid ≠ "" →
    (s.users.find? (fun x => x.toUser.id == uid) = none →
      get_current_user s tok tnow = Except.error ⟨401, "Invalid authentication"⟩) ∧
    (s.users.find? (fun x => x.toUser.id == uid) = some su →
      get_current_user s tok tnow = Except.ok su.toUser) := by
  intro s tok tnow p uid su hdec hid hne
  constructor
  · intro hfind
    simp [get_current_user, get_current_user_checks, hdec, hid, hne, hfind]
  · intro hfind
    simp [get_current_user, get_current_user_checks, hdec, hid, hne, hfind]

/-- Witness for C1: at concrete inputs, an unknown id is rejected with the
401 error and a known (even deactivated) id is returned. -/
theorem C1_witness :
    get_current_user emptyStore tokP 1
      = Except.error ⟨401, "Invalid authentication"⟩ ∧
    get_current_user sAuth tokP 1 = Except.ok uP := by
  constructor
  · exact (C1_refetch_by_id emptyStore tokP 1 pP "p1" suP rfl rfl (by decide)).1 rfl
  · exact (C1_refetch_by_id sAuth tokP 1 pP "p1" suP rfl rfl (by decide)).2 rfl

/-- Claim C2, counterexample: `decode_jwt_token` itself distinguishes the
expired case from the malformed case, but through `get_current_user` — the
path every authenticated operation uses — both collapse to the same
401 "Invalid authentication", so the caller of an operation cannot tell them
apart. -/
theorem C2_counterexample :
    decode_jwt_token tokExpired JWT_SECRET 10
      = Except.error ⟨401, "Token expired"⟩ ∧
    decode_jwt_token Token.malformed JWT_SECRET 10
      = Except.error ⟨401, "Invalid token"⟩ ∧
    get_current_user sAuth tokExpired 10
      = Except.error ⟨401, "Invalid authentication"⟩ ∧
    get_current_user sAuth Token.malformed 10
      = Except.error ⟨401, "Invalid authentication"⟩ :=
  ⟨rfl, rfl, rfl, rfl⟩

/-- Claim C2 (amended): `decode_jwt_token` returns the distinct
401 "Token expired" for an expired well-signed token and 401 "Invalid token"
for a signature mismatch or malformed structure; but every decode failure is
re-raised by `get_current_user`'s blanket `except` handler as the same
401 "Invalid authentication", so callers of authenticated operations cannot
distinguish the two cases. -/
theorem C2_decode_distinct :
    (∀ (p : JwtPayload) (sig tnow : Nat),
      sig ≠ sign p JWT_SECRET →
      decode_jwt_token (Token.signed p sig) JWT_SECRET tnow
        = Except.error ⟨401, "Invalid token"⟩) ∧
    (∀ tnow : Nat,
      decode_jwt_token Token.malformed JWT_SECRET tnow
        = Except.error ⟨401, "Invalid token"⟩) ∧
    (∀ (p : JwtPayload) (tnow : Nat),
      p.exp ≤ tnow →
      decode_jwt_token (Token.signed p (sign p JWT_SECRET)) JWT_SECRET tnow
        = Except.error ⟨401, "Token expired"⟩) ∧
    (∀ (s : Store) (tok : Token) (tnow : Nat) (e : HTTPError),
      decode_jwt_token tok JWT_SECRET tnow = Except.error e →
      get_current_user s tok tnow
        = Except.error ⟨401, "Invalid authentication"⟩) ∧
    (∀ (s : Store) (p : JwtPayload) (tnow : Nat),
      p.id = none → tnow < p.exp →
      get_current_user s (Token.signed p (sign p JWT_SECRET)) tnow
        = Except.error ⟨401, "Invalid authentication"⟩) := by
  refine ⟨?_, ?_, ?_, ?_, ?_⟩
  · intro p sig tnow hsig
    simp [decode_jwt_token, hsig]
  · intro tnow
    rfl
  · intro p tnow hexp
    simp [decode_jwt_token, hexp]
  · intro s tok tnow e hdec
    simp [get_current_user, get_current_user_checks, hdec]
  · intro s p tnow hid hexp
    simp [get_current_user, get_current_user_checks, decode_jwt_token,
      not_le.mpr hexp, hid]

/-- Witness for C2: each branch applied at concrete inputs. -/
theorem C2_witness :
    decode_jwt_token (Token.signed pExpired 0) JWT_SECRET 1
      = Except.error ⟨401, "Invalid token"⟩ ∧
    decode_jwt_token tokExpired JWT_SECRET 7
      = Except.error ⟨401, "Token expired"⟩ ∧
    get_current_user sAuth tokExpired 7
      = Except.error ⟨401, "Invalid authentication"⟩ ∧
    get_current_user sAuth (Token.signed pNoId (sign pNoId JWT_SECRET)) 7
      = Except.error ⟨401, "Invalid authentication"⟩ := by
  refine ⟨?_, ?_, ?_, ?_⟩
  · exact C2_decode_distinct.1 pExpired 0 1 (by decide)
  · exact C2_decode_distinct.2.2.1 pExpired 7 (by decide)
  · exact C2_decode_distinct.2.2.2.1 sAuth tokExpired 7 ⟨401, "Token expired"⟩
      (C2_decode_distinct.2.2.1 pExpired 7 (by decide))
  · exact C2_decode_distinct.2.2.2.2 sAuth pNoId 7 rfl (by decide)

end Synaphack

namespace Synaphack

/-- Claim C3: `update_event_status` succeeds for the owning organizer with
any target status from any current status (no transition-edge validation),
rewriting the stored event's status; for a caller whose id is not the
event's organizer_id, and for a nonexistent event id, it fails with the one
merged 404 "Event not found or unauthorized" and leaves the store
unchanged. -/
theorem C3_update_event_status :
    (∀ (eid : String) (st : EventStatus) (u : User) (s : Store),
      (∀ e ∈ s.events, ¬(e.id = eid ∧ e.organizer_id = u.id)) →
      update_event_status eid st u s
        = (Except.error ⟨404, "Event not found or unauthorized"⟩, s)) ∧
    (∀ (eid : String) (st : EventStatus) (u : User) (s : Store) (e : Event),
      u.role = UserRole.organizer →
      s.events.find? (fun x => x.id == eid) = some e →
      e.organizer_id = u.id →
      (update_event_status eid st u s).1
          = Except.ok "Event status updated successfully" ∧
      ((update_event_status eid st u s).2).events.find? (fun x => x.id == eid)
          = some (setStatusEvent st e) ∧
      ((update_event_status eid st u s).2).users = s.users ∧
      ((update_event_status eid st u s).2).teams = s.teams ∧
      ((update_event_status eid st u s).2).submissions = s.submissions) := by
  constructor
  · intro eid st u s h
    have hnone : s.events.find?
        (fun x => x.id == eid && x.organizer_id == u.id) = none := by
      rw [List.find?_eq_none]
      intro x hx
      have := h x hx
      simp only [beq_iff_eq, Bool.and_eq_true]
      exact fun hc => this hc
    simp [update_event_status, hnone]
  · intro eid st u s e hrole hfind horg
    have hcomb : s.events.find?
        (fun x => x.id == eid && x.organizer_id == u.id) = some e :=
      find?_id_and_organizer s.events eid u.id e hfind horg
    refine ⟨by simp [update_event_status, hcomb], ?_, ?_, ?_, ?_⟩
    · simp [update_event_status, hcomb, find?_set_status_first, hfind]
    · simp [update_event_status, hcomb]
    · simp [update_event_status, hcomb]
    · simp [update_event_status, hcomb]

/-- Witness for C3: the owner moves `e1` from `active` straight to
`completed` (no edge validation); a non-owner participant gets the merged
404 error with the store unchanged. -/
theorem C3_witness :
    (update_event_status "e1" EventStatus.completed uOrg s2).1
      = Except.ok "Event status updated successfully" ∧
    ((update_event_status "e1" EventStatus.completed uOrg s2).2).events.find?
        (fun x => x.id == "e1")
      = some (setStatusEvent EventStatus.completed evActive) ∧
    update_event_status "e1" EventStatus.active uP s1
      = (Except.error ⟨404, "Event not found or unauthorized"⟩, s1) := by
  refine ⟨?_, ?_, ?_⟩
  · exact (C3_update_event_status.2 "e1" EventStatus.completed uOrg s2 evActive rfl rfl rfl).1
  · exact (C3_update_event_status.2 "e1" EventStatus.completed uOrg s2 evActive rfl rfl rfl).2.1
  · exact C3_update_event_status.1 "e1" EventStatus.active uP s1 (by decide)

/-- Claim C4: `login` answers a wrong password for a stored email and an
email absent from the store with the identical 401 "Invalid credentials"
error, revealing nothing about which case occurred. -/
theorem C4_login_same_error :
    ∀ (s : Store) (email pw email2 pw2 : String) (now now2 : Nat)
      (u : StoredUser),
    (s.users.find? (fun su => su.toUser.email == email) = some u →
      verify_password pw u.password = false →
      login email pw now s = Except.error ⟨401, "Invalid credentials"⟩) ∧
    (s.users.find? (fun su => su.toUser.email == email2) = none →
      login email2 pw2 now2 s = Except.error ⟨401, "Invalid credentials"⟩) := by
  intro s email pw email2 pw2 now now2 u
  constructor
  · intro hfind hvp
    simp [login, hfind, hvp]
  · intro hfind
    simp [login, hfind]

/-- Witness for C4: concrete wrong-password and unknown-email calls produce
the identical error. -/
theorem C4_witness :
    login "p@x.com" "wrong" 0 sAuth
      = Except.error ⟨401, "Invalid credentials"⟩ ∧
    login "ghost@x.com" "pw2" 0 sAuth
      = Except.error ⟨401, "Invalid credentials"⟩ := by
  constructor
  · exact (C4_login_same_error sAuth "p@x.com" "wrong" "x" "x" 0 0 suP).1 rfl rfl
  · exact (C4_login_same_error sAuth "x" "x" "ghost@x.com" "pw2" 0 0 suP).2 rfl

/-- Claim C5: validating a token issued for an identity, at any time inside
the validity window, returns the payload embedded at issuance — in
particular the same id and role — and the embedded `exp` is exactly the
issuance time plus 24 hours. -/
theorem C5_token_roundtrip :
    ∀ (u : User) (secret : String) (now t : Nat),
    t < now + 24 * 3600 →
    decode_jwt_token (create_jwt_token u secret now) secret t
      = Except.ok
          { id := some u.id, email := some u.email, name := some u.name,
            role := some u.role, created_at := some u.created_at,
            is_active := some u.is_active, exp := now + 24 * 3600 } := by
  intro u secret now t ht
  show (if sign _ secret ≠ sign _ secret then _
        else if _ + 24 * 3600 ≤ t then _ else _) = _
  rw [if_neg (not_not_intro rfl), if_neg (not_le.mpr ht)]
  rfl

/-- Witness for C5: round-trip of `uP`'s token checked at time 100. -/
theorem C5_witness :
    decode_jwt_token (create_jwt_token uP JWT_SECRET 0) JWT_SECRET 100
      = Except.ok
          { id := some "p1", email := some "p@x.com", name := some "Part",
            role := some UserRole.participant, created_at := some 0,
            is_active := some true, exp := 86400 } :=
  C5_token_roundtrip uP JWT_SECRET 0 100 (by decide)

/-- Claim C9: a valid token whose user's role is outside an operation's
allowed set fails with 403 "Insufficient permissions" (never a 401
token/authentication error); in particular a Participant-role token on the
Organizer-only `create_event` route always yields that 403, for every
payload. -/
theorem C9_role_gate :
    (∀ (roles : List UserRole) (s : Store) (tok : Token) (tnow : Nat)
       (u : User),
      get_current_user s tok tnow = Except.ok u →
      u.role ∉ roles →
      require_role roles s tok tnow
        = Except.error ⟨403, "Insufficient permissions"⟩) ∧
    (∀ (ed : EventCreate) (uuid : String) (now : Nat) (s : Store)
       (tok : Token) (tnow : Nat) (u : User),
      get_current_user s tok tnow = Except.ok u →
      u.role = UserRole.participant →
      create_event_route ed uuid now s tok tnow
        = (Except.error ⟨403, "Insufficient permissions"⟩, s)) := by
  constructor
  · intro roles s tok tnow u hu hrole
    simp [require_role, hu, hrole]
  · intro ed uuid now s tok tnow u hu hrole
    simp [create_event_route, require_role, hu, hrole]

/-- Witness for C9: the participant token `tokP` on the Organizer-only
`create_event` route yields 403. -/
theorem C9_witness :
    require_role [UserRole.organizer] sAuth tokP 1
      = Except.error ⟨403, "Insufficient permissions"⟩ ∧
    create_event_route ed0 "e9" 5 sAuth tokP 1
      = (Except.error ⟨403, "Insufficient permissions"⟩, sAuth) := by
  constructor
  · exact C9_role_gate.1 [UserRole.organizer] sAuth tokP 1 uP rfl (by decide)
  · exact C9_role_gate.2 ed0 "e9" 5 sAuth tokP 1 uP rfl rfl

end Synaphack

namespace Synaphack

/-- Claim C6: for a Participant not already on a team for the event,
`create_team` succeeds exactly when the event's status is `active` or
`submissions_open` — inserting a team whose leader and members are exactly
`[identity.id]` — and fails with 400 "Event not available for registration"
for each of the other four statuses. -/
theorem C6_lifecycle_gating :
    ∀ (td : TeamCreate) (u : User) (uuid : String) (now : Nat) (s : Store)
      (e : Event),
    u.role = UserRole.participant →
    s.events.find? (fun x => x.id == td.event_id) = some e →
    (∀ t ∈ s.teams, (t.event_id == td.event_id && onTeam u.id t) = false) →
    (((create_team td u uuid now s).1
        = Except.ok (⟨uuid, td.name, td.event_id, u.id, [u.id], now⟩ : Team))
      ↔ (e.status = EventStatus.active
          ∨ e.status = EventStatus.submissions_open)) ∧
    ((e.status = EventStatus.active ∨ e.status = EventStatus.submissions_open) →
      create_team td u uuid now s
        = (Except.ok (⟨uuid, td.name, td.event_id, u.id, [u.id], now⟩ : Team),
           { s with teams := s.teams
              ++ [⟨uuid, td.name, td.event_id, u.id, [u.id], now⟩] })) ∧
    (¬(e.status = EventStatus.active ∨ e.status = EventStatus.submissions_open) →
      create_team td u uuid now s
        = (Except.error ⟨400, "Event not available for registration"⟩, s)) := by
  intro td u uuid now s e hrole hfind hteams
  have hnone : s.teams.find?
      (fun t => t.event_id == td.event_id && onTeam u.id t) = none := by
    rw [List.find?_eq_none]
    intro t ht
    simp [hteams t ht]
  by_cases hst : e.status ∈ [EventStatus.active, EventStatus.submissions_open]
  · have hok : create_team td u uuid now s
        = (Except.ok (⟨uuid, td.name, td.event_id, u.id, [u.id], now⟩ : Team),
           { s with teams := s.teams
              ++ [⟨uuid, td.name, td.event_id, u.id, [u.id], now⟩] }) := by
      simp only [create_team, hfind]
      rw [if_neg (not_not_intro hst), hnone]
    have hst' : e.status = EventStatus.active
        ∨ e.status = EventStatus.submissions_open := by
      simpa using hst
    refine ⟨?_, fun _ => hok, fun hc => absurd hst' hc⟩
    constructor
    · intro _; exact hst'
    · intro _; rw [hok]
  · have herr : create_team td u uuid now s
        = (Except.error ⟨400, "Event not available for registration"⟩, s) := by
      simp only [create_team, hfind]
      rw [if_pos hst]
    have hst' : ¬(e.status = EventStatus.active
        ∨ e.status = EventStatus.submissions_open) := by
      simpa using hst
    refine ⟨?_, fun hc => absurd hc hst', fun _ => herr⟩
    constructor
    · intro hc
      rw [herr] at hc
      cases hc
    · intro hc
      exact absurd hc hst'

/-- Witness for C6: `uP` creates a team while `e1` is `active` (success,
leader = members = ["p1"]) and is refused while `e1` is `draft`. -/
theorem C6_witness :
    create_team td0 uP "t1" 0 s2
      = (Except.ok teamT1, { s2 with teams := s2.teams ++ [teamT1] }) ∧
    create_team td0 uP "t1" 0 s1
      = (Except.error ⟨400, "Event not available for registration"⟩, s1) := by
  constructor
  · exact (C6_lifecycle_gating td0 uP "t1" 0 s2 evActive rfl rfl
      (by intro t ht; cases ht)).2.1 (Or.inl rfl)
  · exact (C6_lifecycle_gating td0 uP "t1" 0 s1 evDraft rfl rfl
      (by intro t ht; cases ht)).2.2 (by decide)

/-- Claim C7, counterexample: in the reachable store `s4` the participant
`p1` is already on a team for event `e1`, yet a second `create_team` call
fails with the event-availability error (the event was moved back to
`draft`), not with "Already part of a team for this event" — the
status check precedes the duplicate-membership check. -/
theorem C7_counterexample :
    teamsFor s4 "p1" "e1" = 1 ∧
    create_team td0 uP "t2" 1 s4
      = (Except.error ⟨400, "Event not available for registration"⟩, s4) ∧
    (create_team td0 uP "t2" 1 s4).1
      ≠ Except.error ⟨400, "Already part of a team for this event"⟩ := by
  refine ⟨rfl, rfl, by decide⟩

/-- Claim C7 (amended): in every reachable store each identity is on at
most one team per event; and a `create_team` call by an identity already on
a team for the event fails with 400 "Already part of a team for this event"
(store unchanged) provided the event check passes, i.e. the event exists
with status `active` or `submissions_open` — otherwise the call fails
earlier with the event-availability error, likewise inserting nothing. -/
theorem C7_one_team_per_event :
    (∀ s : Store, Reachable s → ∀ uid eid : String, teamsFor s uid eid ≤ 1) ∧
    (∀ (td : TeamCreate) (u : User) (uuid : String) (now : Nat) (s : Store)
       (e : Event),
      s.events.find? (fun x => x.id == td.event_id) = some e →
      (e.status = EventStatus.active ∨ e.status = EventStatus.submissions_open) →
      (∃ t ∈ s.teams, (t.event_id == td.event_id && onTeam u.id t) = true) →
      create_team td u uuid now s
        = (Except.error ⟨400, "Already part of a team for this event"⟩, s)) ∧
    (∀ (td : TeamCreate) (u : User) (uuid : String) (now : Nat) (s : Store)
       (e : Event),
      s.events.find? (fun x => x.id == td.event_id) = some e →
      ¬(e.status = EventStatus.active ∨ e.status = EventStatus.submissions_open) →
      create_team td u uuid now s
        = (Except.error ⟨400, "Event not available for registration"⟩, s)) := by
  refine ⟨fun s hr => reachable_teamsFor_le hr, ?_, ?_⟩
  · intro td u uuid now s e hfind hst hex
    obtain ⟨t, ht, hp⟩ := hex
    obtain ⟨t2, ht2⟩ := find?_some_of_mem s.teams
        (fun t => t.event_id == td.event_id && onTeam u.id t) t ht hp
    have hmem : e.status ∈ [EventStatus.active, EventStatus.submissions_open] := by
      simpa using hst
    simp only [create_team, hfind]
    rw [if_neg (not_not_intro hmem), ht2]
  · intro td u uuid now s e hfind hst
    have hmem : e.status ∉ [EventStatus.active, EventStatus.submissions_open] := by
      simpa using hst
    simp only [create_team, hfind]
    rw [if_pos hmem]

/-- Witness for C7: the reachable store `s3` satisfies the bound at
(`p1`, `e1`), and a second `create_team` by `p1` while `e1` is still
`active` fails with the duplicate-team error. -/
theorem C7_witness :
    teamsFor s3 "p1" "e1" ≤ 1 ∧
    create_team td0 uP "t2" 1 s3
      = (Except.error ⟨400, "Already part of a team for this event"⟩, s3) := by
  constructor
  · exact C7_one_team_per_event.1 s3 reachable_s3 "p1" "e1"
  · exact C7_one_team_per_event.2.1 td0 uP "t2" 1 s3 evActive rfl (Or.inl rfl)
      ⟨teamT1, by decide, by decide⟩

end Synaphack

namespace Synaphack

/-- Claim C8, counterexample: in the reachable store `s7`, team `t1` already
has a submission for its event `e1`, yet a second `create_submission` fails
with the submissions-not-open error (the organizer had closed submissions),
not with "Submission already exists for this team" — the status check
precedes the duplicate check. -/
theorem C8_counterexample :
    subsFor s7 "t1" "e1" = 1 ∧
    create_submission sd0 "t1" uP "sub2" 3 s7
      = (Except.error ⟨400, "Submissions not open for this event"⟩, s7) ∧
    (create_submission sd0 "t1" uP "sub2" 3 s7).1
      ≠ Except.error ⟨400, "Submission already exists for this team"⟩ := by
  refine ⟨rfl, rfl, by decide⟩

/-- Claim C8 (amended): in every reachable store there is at most one
submission per (team, event) pair; a `create_submission` call for a team
that already has a submission fails with 400 "Submission already exists for
this team" (store unchanged) provided the membership and
submissions-open checks pass — otherwise it fails earlier with their
errors, likewise inserting nothing; on success the inserted submission's
event_id is copied from the team record. -/
theorem C8_one_submission_per_team :
    (∀ s : Store, Reachable s → ∀ tid eid : String, subsFor s tid eid ≤ 1) ∧
    (∀ (sd : SubmissionCreate) (tid : String) (u : User) (uuid : String)
       (now : Nat) (s : Store) (team : Team) (e : Event),
      s.teams.find? (fun t => t.id == tid) = some team →
      u.id ∈ team.members →
      s.events.find? (fun x => x.id == team.event_id) = some e →
      e.status = EventStatus.submissions_open →
      (∃ sub ∈ s.submissions,
        (sub.team_id == tid && sub.event_id == team.event_id) = true) →
      create_submission sd tid u uuid now s
        = (Except.error ⟨400, "Submission already exists for this team"⟩, s)) ∧
    (∀ (sd : SubmissionCreate) (tid : String) (u : User) (uuid : String)
       (now : Nat) (s : Store) (team : Team) (e : Event),
      s.teams.find? (fun t => t.id == tid) = some team →
      u.id ∈ team.members →
      s.events.find? (fun x => x.id == team.event_id) = some e →
      e.status = EventStatus.submissions_open →
      s.submissions.find?
          (fun sub => sub.team_id == tid && sub.event_id == team.event_id) = none →
      create_submission sd tid u uuid now s
        = (Except.ok
            (⟨uuid, tid, team.event_id, sd.title, sd.description,
              sd.github_url, sd.demo_url, sd.video_url, now⟩ : Submission),
           { s with submissions := s.submissions
              ++ [⟨uuid, tid, team.event_id, sd.title, sd.description,
                  sd.github_url, sd.demo_url, sd.video_url, now⟩] })) := by
  refine ⟨fun s hr => reachable_subsFor_le hr, ?_, ?_⟩
  · intro sd tid u uuid now s team e hteam hmem hev hst hex
    obtain ⟨sub, hsub, hp⟩ := hex
    obtain ⟨s2x, hs2x⟩ := find?_some_of_mem s.submissions
      (fun sub => sub.team_id == tid && sub.event_id == team.event_id) sub hsub hp
    have hopen : e.status ∈ [EventStatus.submissions_open] := by simp [hst]
    simp only [create_submission, hteam]
    rw [if_neg (not_not_intro hmem)]
    simp only [hev]
    rw [if_neg (not_not_intro hopen), hs2x]
  · intro sd tid u uuid now s team e hteam hmem hev hst hnone
    have hopen : e.status ∈ [EventStatus.submissions_open] := by simp [hst]
    simp only [create_submission, hteam]
    rw [if_neg (not_not_intro hmem)]
    simp only [hev]
    rw [if_neg (not_not_intro hopen), hnone]

/-- Witness for C8: in the reachable store `s6` the bound holds for
(`t1`, `e1`); the first submission in `s5` succeeds with event_id copied
from the team; the duplicate in `s6` is refused. -/
theorem C8_witness :
    subsFor s6 "t1" "e1" ≤ 1 ∧
    create_submission sd0 "t1" uP "sub1" 2 s5
      = (Except.ok subS1, { s5 with submissions := s5.submissions ++ [subS1] }) ∧
    create_submission sd0 "t1" uP "sub2" 3 s6
      = (Except.error ⟨400, "Submission already exists for this team"⟩, s6) := by
  refine ⟨?_, ?_, ?_⟩
  · exact C8_one_submission_per_team.1 s6 reachable_s6 "t1" "e1"
  · exact C8_one_submission_per_team.2.2 sd0 "t1" uP "sub1" 2 s5 teamT1 evOpen
      rfl (by decide) rfl rfl rfl
  · exact C8_one_submission_per_team.2.1 sd0 "t1" uP "sub2" 3 s6 teamT1 evOpen
      rfl (by decide) rfl rfl ⟨subS1, by decide, by decide⟩

/-- Claim C10: in every reachable store every team's members list is exactly
the one-element list of its leader (`create_team` is the only writer of
teams and always inserts `members = [leader]`); and `max_team_size` is never
consulted: overwriting the field of every stored event changes neither the
result nor (apart from that same field) the store for each operation that
reads stored events — `create_team`, `create_submission`,
`update_event_status`. -/
theorem C10_singleton_teams :
    (∀ s : Store, Reachable s → ∀ t ∈ s.teams, t.members = [t.leader_id]) ∧
    (∀ (td : TeamCreate) (u : User) (uuid : String) (now : Nat) (s : Store)
       (n : Int),
      create_team td u uuid now (set_max_team_size s n)
        = ((create_team td u uuid now s).1,
           set_max_team_size (create_team td u uuid now s).2 n)) ∧
    (∀ (sd : SubmissionCreate) (tid : String) (u : User) (uuid : String)
       (now : Nat) (s : Store) (n : Int),
      create_submission sd tid u uuid now (set_max_team_size s n)
        = ((create_submission sd tid u uuid now s).1,
           set_max_team_size (create_submission sd tid u uuid now s).2 n)) ∧
    (∀ (eid : String) (st : EventStatus) (u : User) (s : Store) (n : Int),
      update_event_status eid st u (set_max_team_size s n)
        = ((update_event_status eid st u s).1,
           set_max_team_size (update_event_status eid st u s).2 n)) :=
  ⟨fun _ hr => reachable_members_eq hr,
   create_team_setMax, create_submission_setMax, update_event_status_setMax⟩

/-- Witness for C10: the team in the reachable store `s3` is the singleton
of its leader, and a concrete `create_team` call is unaffected by
overwriting `max_team_size` with 99. -/
theorem C10_witness :
    teamT1.members = [teamT1.leader_id] ∧
    create_team td0 uP "t9" 5 (set_max_team_size s2 99)
      = ((create_team td0 uP "t9" 5 s2).1,
         set_max_team_size (create_team td0 uP "t9" 5 s2).2 99) := by
  constructor
  · exact C10_singleton_teams.1 s3 reachable_s3 teamT1 (by decide)
  · exact C10_singleton_teams.2.1 td0 uP "t9" 5 s2 99

end Synaphack
